import Mathlib

/-!
Shallow embedding of the Qdrant collection manager
(`src/database/qdrant_manager.py`) and the benchmark harness
(`src/benchmark_vdb.py`) of the conversational-search repository,
with theorems checking the natural-language specification against it.

Vectors are modelled as lists of rationals (only lengths and values matter
to the verified properties); named-vector maps are association lists in
iteration order, matching Python dict iteration; exceptions are modelled
with `Except`; log output is modelled as explicit event lists.
-/

namespace QdrantM

/-- A vector, as stored in a point: a list of coordinates. -/
abbrev Vec := List Rat

/-- The `vector` field of a `PointStruct`: either a single unnamed vector or a
dict of named vectors (association list in insertion order). -/
inductive PVector where
  | unnamed (v : Vec)
  | named (vs : List (String × Vec))
deriving DecidableEq, Repr

/-- Embedding of `qdrant_client.models.PointStruct` (id and vector; the payload
is irrelevant to every verified property and omitted). -/
structure PointStruct where
  id : Nat
  vector : PVector
deriving DecidableEq, Repr

/-- `collection_config.config.params.vectors`: either a single unnamed
`VectorParams` (only its `size` matters to validation) or a dict of named
vector params. -/
inductive VectorsConfig where
  | single (size : Nat)
  | named (cfgs : List (String × Nat))
deriving DecidableEq, Repr

/-- Python dict lookup on the association-list model (`point.vector[name]`). -/
def lookupVec (vs : List (String × Vec)) (name : String) : Option Vec :=
  (vs.find? (fun p => p.1 = name)).map Prod.snd

/-- The errors `_validate_vector_compatibility` can raise (`ValueError` in the
source; the spec's `SchemaValidationError`). -/
inductive VError where
  | expectsNamed
  | expectsUnnamed
  | dimMismatch (name : String) (expected got : Nat)
  | dimMismatchUnnamed (expected got : Nat)
deriving DecidableEq, Repr

/-- The named-vector loop of `_validate_vector_compatibility`
(qdrant_manager.py lines 337-349): iterate over the collection's declared
spaces in order; a declared name missing from the point is logged (warning
collected) and skipped; a present vector with a length different from the
declared size raises. Returns the list of warned names on success.
Point-vector entries whose names are not declared are never inspected. -/
def validateNamed : List (String × Nat) → List (String × Vec) → Except VError (List String)
  | [], _ => .ok []
  | (name, size) :: rest, pv =>
    match lookupVec pv name with
    | none =>
      match validateNamed rest pv with
      | .error e => .error e
      | .ok ws => .ok (name :: ws)
    | some v =>
      if v.length ≠ size then .error (.dimMismatch name size v.length)
      else validateNamed rest pv

/-- Embedding of `QdrantManager._validate_vector_compatibility`
(qdrant_manager.py lines 317-362). `.ok ws` returns the names of declared
vectors missing from the point (logged warnings); `.error` models the raised
`ValueError`. In the source every vector is a Python list, so the
`hasattr(vec_data, "__len__")` guard is always true and is not modelled. -/
def validate_vector_compatibility (point : PointStruct) (cfg : VectorsConfig) :
    Except VError (List String) :=
  match cfg with
  | .named cfgs =>
    match point.vector with
    | .unnamed _ => .error .expectsNamed
    | .named pv => validateNamed cfgs pv
  | .single size =>
    match point.vector with
    | .named _ => .error .expectsUnnamed
    | .unnamed v =>
      if v.length ≠ size then .error (.dimMismatchUnnamed size v.length)
      else .ok []

/-- Distance metrics accepted by `create_collection`. -/
inductive DistanceKind where
  | cosine | euclid | dot | manhattan
deriving DecidableEq, Repr

/-- Embedding of `qdrant_client.models.VectorParams` as built in
`create_collection`. -/
structure VectorParamsE where
  size : Nat
  distance : DistanceKind
  onDisk : Bool
deriving DecidableEq, Repr

/-- The scalar quantization policy attached when `use_quantization` is true:
int8, quantile 0.99, always in RAM (qdrant_manager.py lines 118-124). -/
structure QuantizationCfg where
  int8 : Bool
  quantile : Rat
  alwaysRam : Bool
deriving DecidableEq, Repr

/-- The network request `create_collection` hands to
`client.create_collection` (qdrant_manager.py lines 126-140). -/
structure CreateRequest where
  collectionName : String
  vectorsConfig : List (String × VectorParamsE)
  quantization : Option QuantizationCfg
  maxSegmentSize : Nat
  hnswM : Nat
  hnswOnDisk : Bool
  replicationFactor : Nat
  shardNumber : Option Nat
deriving DecidableEq, Repr

/-- Embedding of `QdrantManager.create_collection` (qdrant_manager.py lines
80-147). The body performs no validation of its arguments: it builds the
per-space `VectorParams` (on-disk exactly when quantization is used), the
optional quantization policy, and issues the store's create call. The
returned value is the request sent over the network; no code path raises
client-side. -/
def create_collection (collectionName : String)
    (vectorConfigs : List (String × Nat × DistanceKind))
    (useQuantization : Bool := true) (hnswM : Nat := 16)
    (replicationFactor : Nat := 2) (shardNumber : Option Nat := none) :
    CreateRequest :=
  let onDisk := useQuantization
  { collectionName := collectionName
    vectorsConfig :=
      vectorConfigs.map (fun c => (c.1, ⟨c.2.1, c.2.2, onDisk⟩))
    quantization :=
      if useQuantization then some ⟨true, 99/100, true⟩ else none
    maxSegmentSize := 5000000
    hnswM := hnswM
    hnswOnDisk := false
    replicationFactor := replicationFactor
    shardNumber := shardNumber }

/-- Log events emitted by the upload pipeline. `emptySource` is the
"No entities to upload" warning (line 195); `mapFailure` the
"Skipping entity due to mapping error" warning (line 263); `existFailure`
the "Failed to check existence for batch" warning (line 292). -/
inductive LogEvent where
  | emptySource
  | mapFailure
  | existFailure
deriving DecidableEq, Repr

/-- Exceptions that abort an upload: the mapper raising on the first entity
during pre-validation, or schema validation failing (both re-raised by
`_prepare_upload`, lines 204-211). -/
inductive UploadError where
  | mapperRaised
  | validation (e : VError)
deriving DecidableEq, Repr

/-- Embedding of `QdrantManager._prepare_upload` (qdrant_manager.py lines
181-211). A mapper returning `none` models the mapping function raising.
On an empty source the helper logs and returns an empty iterable; otherwise
it maps the first entity, validates it against the collection config, and
re-chains the first entity with the remainder. Any failure here is
re-raised, aborting the upload. -/
def prepare_upload {E : Type} (mapper : E → Option PointStruct)
    (cfg : VectorsConfig) (entities : List E) :
    Except UploadError (List E × List LogEvent) :=
  match entities with
  | [] => .ok ([], [.emptySource])
  | e0 :: rest =>
    match mapper e0 with
    | none => .error .mapperRaised
    | some p0 =>
      match validate_vector_compatibility p0 cfg with
      | .error ve => .error (.validation ve)
      | .ok _ => .ok (e0 :: rest, [])

/-- Embedding of the inner `process_batch` helper of `upload`
(qdrant_manager.py lines 273-297). `retrieve` models
`sync_client.retrieve`: given the ids to check it returns the ids of the
records found, or `none` when the lookup raises. On success only points
whose ids were not found are yielded; on failure the whole batch is
yielded unchanged with a warning (fail-open). -/
def process_batch (retrieve : List Nat → Option (List Nat))
    (points : List PointStruct) : List PointStruct × List LogEvent :=
  match points with
  | [] => ([], [])
  | _ =>
    match retrieve (points.map (·.id)) with
    | some existingIds =>
      (points.filter (fun p => ¬ p.id ∈ existingIds), [])
    | none => (points, [.existFailure])

/-- Embedding of the inner `safe_points_generator` of `upload`
(qdrant_manager.py lines 248-271), with the batch buffer made explicit.
Each entity is mapped; a raising mapper (`none`) is caught, logged, and
skips only that entity. With `checkExisting` false the point is yielded
directly; otherwise points are buffered and every full batch of
`batchSize` goes through `process_batch`; the final partial buffer is
flushed at the end. -/
def safe_points_generator {E : Type} (retrieve : List Nat → Option (List Nat))
    (mapper : E → Option PointStruct) (checkExisting : Bool) (batchSize : Nat) :
    List E → List PointStruct → List PointStruct × List LogEvent
  | [], buf =>
    match buf with
    | [] => ([], [])
    | _ => process_batch retrieve buf
  | e :: rest, buf =>
    match mapper e with
    | none =>
      let r := safe_points_generator retrieve mapper checkExisting batchSize rest buf
      (r.1, .mapFailure :: r.2)
    | some p =>
      if checkExisting then
        if batchSize ≤ (buf ++ [p]).length then
          let b := process_batch retrieve (buf ++ [p])
          let r := safe_points_generator retrieve mapper checkExisting batchSize rest []
          (b.1 ++ r.1, b.2 ++ r.2)
        else
          safe_points_generator retrieve mapper checkExisting batchSize rest (buf ++ [p])
      else
        let r := safe_points_generator retrieve mapper checkExisting batchSize rest buf
        (p :: r.1, r.2)

/-- Outcome of a successful `upload` call: the points handed to the store's
`upload_points` bulk write, whether the bulk-write call and the readiness
poll were invoked, and the emitted log events. -/
structure UploadOutcome where
  written : List PointStruct
  bulkWriteInvoked : Bool
  readinessPollInvoked : Bool
  logs : List LogEvent
deriving DecidableEq, Repr

/-- Embedding of `QdrantManager.upload` (qdrant_manager.py lines 213-315):
pre-validate via `_prepare_upload` (errors propagate and nothing is
written), then unconditionally call `upload_points` on the stream produced
by `safe_points_generator` and poll for collection readiness. Note the
bulk-write and readiness-poll calls are issued even when the prepared
entity list is empty. -/
def upload {E : Type} (retrieve : List Nat → Option (List Nat))
    (mapper : E → Option PointStruct) (cfg : VectorsConfig)
    (checkExisting : Bool) (batchSize : Nat) (entities : List E) :
    Except UploadError UploadOutcome :=
  match prepare_upload mapper cfg entities with
  | .error err => .error err
  | .ok (ents, plogs) =>
    let g := safe_points_generator retrieve mapper checkExisting batchSize ents []
    .ok { written := g.1
          bulkWriteInvoked := true
          readinessPollInvoked := true
          logs := plogs ++ g.2 }

/-- A store holding the set of existing point ids, with a correctly working
`retrieve`: it reports exactly the queried ids that exist. -/
def goodRetrieve (store : List Nat) : List Nat → Option (List Nat) :=
  fun ids => some (ids.filter (· ∈ store))

/-- A query request as issued by `search_points` to
`client.query_points` (qdrant_manager.py lines 433-441). -/
structure SearchRequest where
  collectionName : String
  query : Vec
  vectorName : String
  limit : Nat
deriving DecidableEq, Repr

/-- A scored search result. -/
structure ScoredPoint where
  id : Nat
  score : Rat
deriving DecidableEq, Repr

/-- Embedding of `QdrantManager.search_points` (qdrant_manager.py lines
407-455). `queryPoints` models the transport call to the store. The method
performs no client-side validation of the query vector: it issues the
network query unconditionally (the first component records the requests
sent) and returns the store's response, re-raising any transport error
unchanged. -/
def search_points (queryPoints : SearchRequest → Except String (List ScoredPoint))
    (req : SearchRequest) : List SearchRequest × Except String (List ScoredPoint) :=
  ([req], queryPoints req)

/-!
Instrumented variant of the upload pipeline, used to count mapper
invocations: the mapper receives the global invocation index (0-based), so
an impure mapping function is modelled faithfully, and the trace of
`(invocation index, entity)` pairs records every call made.
-/

/-- `_prepare_upload`, instrumented: the mapper's single invocation on the
first entity carries index 0. Returns the trace together with the
re-chained entity list. -/
def prepare_uploadT {E : Type} (mapper : Nat → E → Option PointStruct)
    (cfg : VectorsConfig) (entities : List E) :
    List (Nat × E) × Except UploadError (List E) :=
  match entities with
  | [] => ([], .ok [])
  | e0 :: rest =>
    match mapper 0 e0 with
    | none => ([(0, e0)], .error .mapperRaised)
    | some p0 =>
      match validate_vector_compatibility p0 cfg with
      | .error ve => ([(0, e0)], .error (.validation ve))
      | .ok _ => ([(0, e0)], .ok (e0 :: rest))

/-- `safe_points_generator` with `check_existing=False`, instrumented: maps
each entity in order (invocation indices counting on from `k`), yielding
the mapped points and recording every mapper call. A `none` result models
a caught-and-logged mapping failure. -/
def points_generatorT {E : Type} (mapper : Nat → E → Option PointStruct) :
    List E → Nat → List (Nat × E) × List PointStruct
  | [], _ => ([], [])
  | e :: rest, k =>
    let r := points_generatorT mapper rest (k + 1)
    match mapper k e with
    | none => ((k, e) :: r.1, r.2)
    | some p => ((k, e) :: r.1, p :: r.2)

/-- `upload` with `check_existing=False`, instrumented with the mapper call
trace: pre-validation consumes invocation 0 on the first entity; streaming
then re-chains the first entity, so invocation 1 hits the first entity
again, and the point uploaded for it is that second invocation's result. -/
def uploadT {E : Type} (mapper : Nat → E → Option PointStruct)
    (cfg : VectorsConfig) (entities : List E) :
    List (Nat × E) × Except UploadError (List PointStruct) :=
  match prepare_uploadT mapper cfg entities with
  | (tr, .error err) => (tr, .error err)
  | (tr, .ok ents) =>
    let g := points_generatorT mapper ents 1
    (tr ++ g.1, .ok g.2)

/-!
Readiness poller: `wait_for_collection_index` (qdrant_manager.py lines
364-405). The store is modelled as the sequence of statuses its successive
`get_collection` calls report. Iteration `k` of the `while True` loop runs
at elapsed time `5 * k` seconds (the loop sleeps 5.0 s between polls);
the loop breaks on GREEN, or — checked after the status check — warns and
breaks once the elapsed time exceeds `timeout`. The fuel argument makes
the recursion structural; the theorems show the stated fuel always
suffices, i.e. the loop always returns.
-/

/-- Collection status as reported by the store. -/
inductive CollStatus where
  | green | yellow | red | grey
deriving DecidableEq, Repr

/-- How a `wait_for_collection_index` call returned: GREEN observed at poll
`k`, or timed out at poll `k` (with the warning logged). -/
inductive WaitOutcome where
  | greenAt (k : Nat)
  | timedOut (k : Nat) (warned : Bool)
deriving DecidableEq, Repr

/-- One `while True` iteration chain of `wait_for_collection_index`, with
fuel. `status k` is what the store reports at the `k`-th poll. -/
def waitLoop (status : Nat → CollStatus) (timeout : Nat) :
    Nat → Nat → Option WaitOutcome
  | _, 0 => none
  | k, fuel + 1 =>
    if status k = .green then some (.greenAt k)
    else if 5 * k > timeout then some (.timedOut k true)
    else waitLoop status timeout (k + 1) fuel

/-- Embedding of `QdrantManager.wait_for_collection_index`: run the poll
loop from time zero with enough fuel for the timeout. -/
def wait_for_collection_index (status : Nat → CollStatus) (timeout : Nat) :
    Option WaitOutcome :=
  waitLoop status timeout 0 (timeout / 5 + 2)

/-!
Benchmark harness quantiles (`src/benchmark_vdb.py`, `run_benchmark` lines
153-155): `p95 = statistics.quantiles(latencies, n=20)[18]` and
`p99 = statistics.quantiles(latencies, n=100)[98]`. Python's
`statistics.quantiles` with its default `method='exclusive'` sorts the
data and, for each cut `i`, interpolates linearly around position
`i*(ld+1)/n` with `j` clamped into `[1, ld-1]` and
`delta = i*(ld+1) - j*n` computed from the clamped `j` (so `delta` may
leave `[0, n]` and the result may extrapolate beyond the sample range).
-/

/-- Sorted copy of the sample (`data = sorted(data)`). -/
def sortedSample (data : List Rat) : List Rat :=
  data.insertionSort (· ≤ ·)

/-- Embedding of CPython's `statistics.quantiles(data, n=n)` (the default
exclusive method): `none` models the `StatisticsError` raised when the
sample has fewer than two points. -/
def quantilesExclusive (data : List Rat) (n : Nat) : Option (List Rat) :=
  let ld := data.length
  if ld < 2 then none
  else
    let s := sortedSample data
    let m := ld + 1
    some ((List.range (n - 1)).map (fun i0 =>
      let i := i0 + 1
      let j0 := i * m / n
      let j := if j0 < 1 then 1 else if j0 > ld - 1 then ld - 1 else j0
      let delta : Int := (i * m : Int) - (j * n : Int)
      (s.getD (j - 1) 0 * ((n : Int) - delta : Int) + s.getD j 0 * (delta : Rat)) / (n : Rat)))

/-- The p95 the benchmark reports: `statistics.quantiles(latencies, n=20)[18]`. -/
def benchP95 (latencies : List Rat) : Option Rat :=
  (quantilesExclusive latencies 20).bind (fun l => l[18]?)

/-- The p99 the benchmark reports: `statistics.quantiles(latencies, n=100)[98]`. -/
def benchP99 (latencies : List Rat) : Option Rat :=
  (quantilesExclusive latencies 100).bind (fun l => l[98]?)

/-- The nearest-rank quantile on the sorted sample: the `⌈p·n⌉`-th smallest
value (the definition the spec asserts the benchmark uses). -/
def nearestRankQuantile (data : List Rat) (p : Rat) : Option Rat :=
  match data with
  | [] => none
  | _ =>
    let s := sortedSample data
    let r := (⌈p * (data.length : Rat)⌉).toNat
    s[r - 1]?

/-! ## Theorems -/

/-- C6 counterexample: calling `create_collection` with an empty map of
vector spaces raises no error; the create request is issued to the store
with an empty `vectors_config` (and otherwise default parameters), so the
claim that creation fails with a `SchemaError` on an empty map is false.
The source body (lines 107-140) contains no emptiness check and no raise. -/
theorem create_collection_empty_counterexample :
    create_collection "c" [] true 16 2 none =
      { collectionName := "c"
        vectorsConfig := []
        quantization := some ⟨true, 99/100, true⟩
        maxSegmentSize := 5000000
        hnswM := 16
        hnswOnDisk := false
        replicationFactor := 2
        shardNumber := none } ∧
    (create_collection "c" [] true 16 2 none).vectorsConfig = [] := by
  constructor <;> rfl

/-- C6 amended: for every combination of the other creation parameters,
`create_collection` performs no client-side validation of an empty vector
space map: the store's create call is issued with an empty
`vectors_config` and no error is raised by this component. -/
theorem create_collection_empty_forwarded (name : String) (useQ : Bool)
    (hnswM rf : Nat) (sn : Option Nat) :
    (create_collection name [] useQ hnswM rf sn).vectorsConfig = [] ∧
    create_collection name [] useQ hnswM rf sn =
      { collectionName := name
        vectorsConfig := []
        quantization := if useQ then some ⟨true, 99/100, true⟩ else none
        maxSegmentSize := 5000000
        hnswM := hnswM
        hnswOnDisk := false
        replicationFactor := rf
        shardNumber := sn } := by
  constructor <;> rfl

/-- C9 counterexample: uploading an empty entity source writes no points and
raises no error, but the bulk-write call and the readiness poll are still
performed (with an empty point stream) — `upload` does not return early,
`_prepare_upload` merely hands it an empty iterable (lines 194-196,
299-307). This contradicts the claim that those remaining steps are not
performed. -/
theorem upload_empty_source_counterexample :
    upload (goodRetrieve []) (fun p : PointStruct => some p)
        (.named []) true 64 [] =
      .ok { written := []
            bulkWriteInvoked := true
            readinessPollInvoked := true
            logs := [.emptySource] } := rfl

/-- C9 amended: for every entity type, retrieve function, mapper, collection
config, dedup flag and batch size, uploading an empty source logs the
"no entities" warning, writes no points and returns without error — but the
bulk-write primitive and the readiness poll are still invoked (on an empty
stream). -/
theorem upload_empty_source_noop {E : Type}
    (retrieve : List Nat → Option (List Nat)) (mapper : E → Option PointStruct)
    (cfg : VectorsConfig) (checkExisting : Bool) (batchSize : Nat) :
    upload retrieve mapper cfg checkExisting batchSize ([] : List E) =
      .ok { written := []
            bulkWriteInvoked := true
            readinessPollInvoked := true
            logs := [.emptySource] } := rfl

/-- Helper: the named-vector validation loop raises exactly when some
declared space has a vector present in the point whose length differs from
the declared size. In particular point-vector entries with undeclared
names can never cause an error. -/
theorem validateNamed_error_iff (cfgs : List (String × Nat)) (pv : List (String × Vec)) :
    (∃ e, validateNamed cfgs pv = .error e) ↔
      ∃ c ∈ cfgs, ∃ v, lookupVec pv c.1 = some v ∧ v.length ≠ c.2 := by
  induction cfgs with
  | nil => simp [validateNamed]
  | cons c rest ih =>
    obtain ⟨name, size⟩ := c
    simp only [validateNamed]
    cases hl : lookupVec pv name with
    | none =>
      cases hv : validateNamed rest pv with
      | error e =>
        simp only [hv]
        constructor
        · intro _
          have : ∃ e, validateNamed rest pv = .error e := ⟨e, hv⟩
          obtain ⟨c', hc', w, hw, hwl⟩ := ih.mp this
          exact ⟨c', List.mem_cons_of_mem _ hc', w, hw, hwl⟩
        · intro _; exact ⟨e, rfl⟩
      | ok ws =>
        simp only [hv]
        constructor
        · rintro ⟨e, he⟩; exact absurd he (by simp)
        · rintro ⟨c', hc', w, hw, hwl⟩
          rcases List.mem_cons.mp hc' with h | h
          · subst h; simp only at hw; rw [hl] at hw; exact absurd hw (by simp)
          · obtain ⟨e, he⟩ := ih.mpr ⟨c', h, w, hw, hwl⟩
            rw [he] at hv; exact absurd hv (by simp)
    | some v =>
      by_cases hlen : v.length ≠ size
      · simp only [if_pos hlen]
        constructor
        · intro _; exact ⟨(name, size), List.mem_cons_self _ _, v, hl, hlen⟩
        · intro _; exact ⟨_, rfl⟩
      · simp only [if_neg hlen]
        push_neg at hlen
        constructor
        · intro h
          obtain ⟨c', hc', w, hw, hwl⟩ := ih.mp h
          exact ⟨c', List.mem_cons_of_mem _ hc', w, hw, hwl⟩
        · rintro ⟨c', hc', w, hw, hwl⟩
          rcases List.mem_cons.mp hc' with h | h
          · subst h
            simp only at hw
            rw [hl] at hw
            obtain rfl : v = w := by injection hw
            exact absurd hlen hwl
          · exact ih.mpr ⟨c', h, w, hw, hwl⟩

/-- Helper: on success the validation loop's warnings are exactly the
declared space names missing from the point, in declaration order. -/
theorem validateNamed_ok_warnings (cfgs : List (String × Nat)) (pv : List (String × Vec))
    (ws : List String) (h : validateNamed cfgs pv = .ok ws) :
    ws = (cfgs.filter (fun c => (lookupVec pv c.1).isNone)).map Prod.fst := by
  induction cfgs generalizing ws with
  | nil => simp [validateNamed] at h; simp [h]
  | cons c rest ih =>
    obtain ⟨name, size⟩ := c
    simp only [validateNamed] at h
    cases hl : lookupVec pv name with
    | none =>
      rw [hl] at h
      cases hv : validateNamed rest pv with
      | error e => rw [hv] at h; exact absurd h (by simp)
      | ok ws' =>
        rw [hv] at h
        obtain rfl : name :: ws' = ws := by injection h
        simp [List.filter_cons, hl, ih ws' hv]
    | some v =>
      rw [hl] at h
      simp only at h
      split at h
      · exact absurd h (by simp)
      · simp [List.filter_cons, hl, ih ws h]

/-- C2 counterexample: mirroring the repo's own unit test
`test_validate_vector_compatibility_fail`, a point whose only named vector
`"wrong_name"` is not among the collection's declared spaces passes
validation with `.ok` (warning the declared `"correct_name"` is missing) —
it does not fail fast with a `SchemaValidationError`, so the claim's
"named vector missing from the collection's declared spaces" case is false
on the code. -/
theorem undeclared_vector_name_counterexample :
    lookupVec [("wrong_name", [1/10])] "correct_name" = none ∧
    validate_vector_compatibility ⟨1, .named [("wrong_name", [1/10])]⟩
        (.named [("correct_name", 1)]) = .ok ["correct_name"] := by
  constructor <;> rfl

/-- C2 amended: during upload pre-validation of the first mapped point,
validation errors arise exactly from a *declared* space whose vector is
present in the point with the wrong length (so a point vector name absent
from the declared spaces is ignored, never fatal); on success the warnings
are exactly the declared names missing from the point (logged, not fatal);
and a validation error makes `upload` abort before any write. -/
theorem upload_prevalidation_characterization
    (cfgs : List (String × Nat)) (i : Nat) (pv : List (String × Vec)) :
    ((∃ e, validate_vector_compatibility ⟨i, .named pv⟩ (.named cfgs) = .error e) ↔
      ∃ c ∈ cfgs, ∃ v, lookupVec pv c.1 = some v ∧ v.length ≠ c.2) ∧
    (∀ ws, validate_vector_compatibility ⟨i, .named pv⟩ (.named cfgs) = .ok ws →
      ws = (cfgs.filter (fun c => (lookupVec pv c.1).isNone)).map Prod.fst) ∧
    (∀ {E : Type} (mapper : E → Option PointStruct)
      (retrieve : List Nat → Option (List Nat)) (cE : Bool) (b : Nat)
      (e0 : E) (rest : List E) (e : VError),
      mapper e0 = some ⟨i, .named pv⟩ →
      validate_vector_compatibility ⟨i, .named pv⟩ (.named cfgs) = .error e →
      upload retrieve mapper (.named cfgs) cE b (e0 :: rest) = .error (.validation e)) := by
  refine ⟨validateNamed_error_iff cfgs pv, ?_, ?_⟩
  · intro ws h
    exact validateNamed_ok_warnings cfgs pv ws h
  · intro E mapper retrieve cE b e0 rest e hm he
    simp [upload, prepare_upload, hm, he]

/-- C2 witness: instantiating the characterization — a declared `"image"`
space of dimension 4 with a length-3 vector present errors; against a point
with no named vectors the warning list is exactly `["image"]`; and the
dimension mismatch aborts a concrete `upload` before any write. -/
theorem upload_prevalidation_characterization_witness :
    (∃ e, validate_vector_compatibility ⟨1, .named [("image", [1, 2, 3])]⟩
        (.named [("image", 4)]) = .error e) ∧
    (["image"] = ((([("image", 4)] : List (String × Nat)).filter
        (fun c => (lookupVec [] c.1).isNone)).map Prod.fst)) ∧
    upload (goodRetrieve []) (fun _ : Nat => some ⟨1, .named [("image", [1, 2, 3])]⟩)
        (.named [("image", 4)]) true 64 [0] =
      .error (.validation (.dimMismatch "image" 4 3)) := by
  refine ⟨?_, ?_, ?_⟩
  · exact (upload_prevalidation_characterization [("image", 4)] 1
      [("image", [1, 2, 3])]).1.mpr ⟨("image", 4), by decide, [1, 2, 3], by decide, by decide⟩
  · exact (upload_prevalidation_characterization [("image", 4)] 2 []).2.1
      ["image"] rfl
  · exact (upload_prevalidation_characterization [("image", 4)] 1
      [("image", [1, 2, 3])]).2.2 _ _ true 64 0 [] _ rfl rfl

/-- C1 counterexample: against a collection declaring `"image"` with
dimension 4, a query vector of length 3 makes the upload path raise
(first conjunct), but `search_points` performs no client-side validation:
it issues the query network call and returns the transport's response —
no `SchemaValidationError` is raised before the query call, refuting the
search half of the claim. -/
theorem search_skips_dimension_validation_counterexample :
    validate_vector_compatibility ⟨1, .named [("image", [1, 2, 3])]⟩
        (.named [("image", 4)]) = .error (.dimMismatch "image" 4 3) ∧
    (search_points (fun _ => .ok []) ⟨"c", [1, 2, 3], "image", 10⟩).1 =
      [⟨"c", [1, 2, 3], "image", 10⟩] ∧
    (search_points (fun _ => .ok []) ⟨"c", [1, 2, 3], "image", 10⟩).2 = .ok [] := by
  exact ⟨rfl, rfl, rfl⟩

/-- C1 amended: uploading a point whose vector for a declared space has
length ≠ D aborts with a `SchemaValidationError` before any write (the
upload returns an error and never reaches the bulk-write call), while
`search_points` performs no client-side dimension validation: for every
transport and request it issues the query network call unconditionally
and returns the store's response. -/
theorem upload_validates_dimensions_search_does_not {E : Type}
    (mapper : E → Option PointStruct) (retrieve : List Nat → Option (List Nat))
    (cE : Bool) (b : Nat) (cfgs : List (String × Nat)) (name : String) (D : Nat)
    (e0 : E) (rest : List E) (i : Nat) (pv : List (String × Vec)) (v : Vec)
    (hm : mapper e0 = some ⟨i, .named pv⟩)
    (hdecl : (name, D) ∈ cfgs) (hv : lookupVec pv name = some v)
    (hlen : v.length ≠ D) :
    (∃ ve, upload retrieve mapper (.named cfgs) cE b (e0 :: rest) =
      .error (.validation ve)) ∧
    (∀ (qp : SearchRequest → Except String (List ScoredPoint)) (req : SearchRequest),
      search_points qp req = ([req], qp req)) := by
  constructor
  · obtain ⟨e, he⟩ := (validateNamed_error_iff cfgs pv).mpr ⟨(name, D), hdecl, v, hv, hlen⟩
    refine ⟨e, ?_⟩
    simp [upload, prepare_upload, hm, validate_vector_compatibility, he]
  · intro qp req
    rfl

/-- C1 witness: the upload half at a concrete mismatched input — a
collection declaring `"image"` of dimension 4 and a first point carrying a
length-3 `"image"` vector aborts the upload with a validation error. -/
theorem upload_validates_dimensions_witness :
    ∃ ve, upload (goodRetrieve []) (fun _ : Nat => some ⟨1, .named [("image", [1, 2, 3])]⟩)
        (.named [("image", 4)]) true 64 [0] = .error (.validation ve) :=
  (upload_validates_dimensions_search_does_not
    (fun _ : Nat => some ⟨1, .named [("image", [1, 2, 3])]⟩) (goodRetrieve [])
    true 64 [("image", 4)] "image" 4 0 [] 1 [("image", [1, 2, 3])] [1, 2, 3]
    rfl (by decide) rfl (by decide)).1

/-- Helper: against a correctly working store, `process_batch` yields
exactly the points of the batch whose ids are not already stored, with no
warning. -/
theorem process_batch_good (S : List Nat) (pts : List PointStruct) :
    process_batch (goodRetrieve S) pts =
      (pts.filter (fun p => ¬ p.id ∈ S), []) := by
  cases pts with
  | nil => rfl
  | cons p ps =>
    simp only [process_batch, goodRetrieve, Prod.mk.injEq]
    refine ⟨?_, trivial⟩
    apply List.filter_congr
    intro x hx
    have hid : x.id ∈ (p :: ps).map (fun q => q.id) := List.mem_map_of_mem _ hx
    simp only [decide_eq_decide]
    apply not_congr
    simp only [List.mem_filter, decide_eq_true_eq, and_iff_right_iff_imp]
    intro _
    exact hid

/-- Helper: against a correctly working store and with dedup enabled, the
generator yields — across all batch boundaries — exactly the successfully
mapped points whose ids are not already stored, and logs one mapping
warning per entity on which the mapper raised. -/
theorem safe_points_generator_good {E : Type} (S : List Nat)
    (mapper : E → Option PointStruct) (b : Nat) :
    ∀ (ents : List E) (buf : List PointStruct),
      safe_points_generator (goodRetrieve S) mapper true b ents buf =
        ((buf ++ ents.filterMap mapper).filter (fun p => ¬ p.id ∈ S),
         List.replicate (ents.countP (fun e => (mapper e).isNone)) .mapFailure) := by
  intro ents
  induction ents with
  | nil =>
    intro buf
    cases buf with
    | nil => simp [safe_points_generator]
    | cons q qs => simp [safe_points_generator, process_batch_good]
  | cons e rest ih =>
    intro buf
    cases hm : mapper e with
    | none =>
      simp [safe_points_generator, hm, ih, List.countP_cons, List.replicate_succ]
    | some p =>
      by_cases hb : b ≤ (buf ++ [p]).length
      · simp only [safe_points_generator, hm, if_true]
        rw [if_pos hb]
        simp only [process_batch_good, ih, List.filterMap_cons, hm,
          List.countP_cons, List.append_assoc, List.nil_append,
          List.filter_append, Prod.mk.injEq]
        refine ⟨?_, by simp [hm]⟩
        rw [← List.filter_append, List.singleton_append]
      · simp only [safe_points_generator, hm, if_true]
        rw [if_neg hb]
        simp [ih, List.filterMap_cons, hm, List.countP_cons, List.append_assoc]

/-- Helper: a mapper that succeeds on every entity yields one point per
entity. -/
theorem length_filterMap_of_isSome {E : Type} (mapper : E → Option PointStruct) :
    ∀ (l : List E), (∀ e ∈ l, (mapper e).isSome) →
      (l.filterMap mapper).length = l.length := by
  intro l
  induction l with
  | nil => intro _; rfl
  | cons e rest ih =>
    intro h
    have he := h e (List.mem_cons_self _ _)
    obtain ⟨p, hp⟩ := Option.isSome_iff_exists.mp he
    rw [List.filterMap_cons, hp, List.length_cons,
      ih (fun x hx => h x (List.mem_cons_of_mem _ hx)), List.length_cons]

/-- Helper: the length of the kept points is the total minus the count of
already-stored ids. -/
theorem length_filter_not_mem (S : List Nat) (pts : List PointStruct) :
    (pts.filter (fun p => ¬ p.id ∈ S)).length =
      pts.length - pts.countP (fun p => p.id ∈ S) := by
  induction pts with
  | nil => rfl
  | cons p ps ih =>
    have hle : ps.countP (fun q => decide (q.id ∈ S)) ≤ ps.length :=
      List.countP_le_length _
    simp only [decide_not] at ih
    by_cases hp : p.id ∈ S <;>
      (simp [List.filter_cons, List.countP_cons, hp, ih]; try omega)

/-- C3: with `check_existing=true` and a correctly working existence
lookup over a store `S`, uploading a stream of `N` entities (all of which
the mapper converts) writes exactly `N − K` points, where `K` counts the
entities whose point id already exists in `S`; and running the same upload
again over the store augmented with the first run's writes is idempotent —
the second run writes zero new points. -/
theorem upload_dedup_writes_exactly_new_points {E : Type} (S : List Nat)
    (cfg : VectorsConfig) (mapper : E → Option PointStruct) (b : Nat)
    (e0 : E) (rest : List E) (p0 : PointStruct)
    (hmap : ∀ e ∈ e0 :: rest, (mapper e).isSome)
    (hm0 : mapper e0 = some p0)
    (hval : ∃ ws, validate_vector_compatibility p0 cfg = .ok ws) :
    ∃ out, upload (goodRetrieve S) mapper cfg true b (e0 :: rest) = .ok out ∧
      out.written.length =
        (e0 :: rest).length -
          ((e0 :: rest).filterMap mapper).countP (fun p => p.id ∈ S) ∧
      ∃ out2,
        upload (goodRetrieve (S ++ out.written.map (fun p => p.id))) mapper cfg
            true b (e0 :: rest) = .ok out2 ∧
        out2.written = [] := by
  obtain ⟨ws, hws⟩ := hval
  have hrun : ∀ (T : List Nat),
      upload (goodRetrieve T) mapper cfg true b (e0 :: rest) =
        .ok { written :=
                ((e0 :: rest).filterMap mapper).filter (fun p => ¬ p.id ∈ T)
              bulkWriteInvoked := true
              readinessPollInvoked := true
              logs := List.replicate
                ((e0 :: rest).countP (fun e => (mapper e).isNone)) .mapFailure } := by
    intro T
    simp [upload, prepare_upload, hm0, hws, safe_points_generator_good]
  refine ⟨_, hrun S, ?_, ?_⟩
  · simp only []
    rw [length_filter_not_mem, length_filterMap_of_isSome mapper _ hmap]
  · refine ⟨_, hrun _, ?_⟩
    simp only []
    rw [List.filter_eq_nil_iff]
    intro p hp
    simp only [decide_not, Bool.not_eq_true', decide_eq_false_iff_not, not_not]
    by_cases hs : p.id ∈ S
    · exact List.mem_append_left _ hs
    · refine List.mem_append_right _ ?_
      refine List.mem_map_of_mem _ ?_
      rw [List.mem_filter]
      exact ⟨hp, by simpa using hs⟩

/-- C3 witness: two entities with ids 1 and 2 against a store already
holding id 1 — the upload writes exactly 2 − 1 = 1 point, and re-running
over the store including the written point writes none. -/
theorem upload_dedup_writes_witness :
    ∃ out, upload (goodRetrieve [1]) (fun p : PointStruct => some p) (.named [])
        true 64 [⟨1, .named []⟩, ⟨2, .named []⟩] = .ok out ∧
      out.written.length = 1 ∧
      ∃ out2, upload (goodRetrieve ([1] ++ out.written.map (fun p => p.id)))
          (fun p : PointStruct => some p) (.named []) true 64
          [⟨1, .named []⟩, ⟨2, .named []⟩] = .ok out2 ∧
        out2.written = [] := by
  obtain ⟨out, h1, h2, h3⟩ :=
    upload_dedup_writes_exactly_new_points [1] (.named [])
      (fun p : PointStruct => some p) 64 ⟨1, .named []⟩ [⟨2, .named []⟩]
      ⟨1, .named []⟩ (by intro e _; rfl) rfl ⟨[], rfl⟩
  exact ⟨out, h1, h2.trans rfl, h3⟩

/-- C7: during streaming, a mapper that raises on some entities only skips
those entities: the points fed to the bulk write are exactly the
successfully mapped ones (in order, against an empty store), the upload
completes without error, and one mapping-failure warning is logged per
raising entity. -/
theorem upload_mapping_failures_skip_single_entities {E : Type}
    (cfg : VectorsConfig) (mapper : E → Option PointStruct) (b : Nat)
    (e0 : E) (rest : List E) (p0 : PointStruct)
    (hm0 : mapper e0 = some p0)
    (hval : ∃ ws, validate_vector_compatibility p0 cfg = .ok ws) :
    ∃ out, upload (goodRetrieve []) mapper cfg true b (e0 :: rest) = .ok out ∧
      out.written = (e0 :: rest).filterMap mapper ∧
      out.logs.count .mapFailure =
        (e0 :: rest).countP (fun e => (mapper e).isNone) := by
  obtain ⟨ws, hws⟩ := hval
  have hrun : upload (goodRetrieve []) mapper cfg true b (e0 :: rest) =
      .ok { written := ((e0 :: rest).filterMap mapper).filter
              (fun p => ¬ p.id ∈ ([] : List Nat))
            bulkWriteInvoked := true
            readinessPollInvoked := true
            logs := List.replicate
              ((e0 :: rest).countP (fun e => (mapper e).isNone)) .mapFailure } := by
    simp [upload, prepare_upload, hm0, hws, safe_points_generator_good]
  refine ⟨_, hrun, ?_, ?_⟩
  · simp only []
    apply List.filter_eq_self.mpr
    intro p _
    simp
  · simp [List.count_replicate]

/-- C7 witness: the spec's scenario — a 3-entity stream whose mapper raises
on entity #2 completes with exactly 2 points written and one logged
mapping failure. -/
theorem upload_mapping_failures_witness :
    ∃ out, upload (goodRetrieve [])
        (fun n : Nat => if n = 20 then none else some ⟨n, .named []⟩)
        (.named []) true 64 [10, 20, 30] = .ok out ∧
      out.written.length = 2 ∧ out.logs.count .mapFailure = 1 := by
  obtain ⟨out, h1, h2, h3⟩ :=
    upload_mapping_failures_skip_single_entities (.named [])
      (fun n : Nat => if n = 20 then none else some ⟨n, .named []⟩) 64 10 [20, 30]
      ⟨10, .named []⟩ rfl ⟨[], rfl⟩
  refine ⟨out, h1, ?_, ?_⟩
  · rw [h2]; rfl
  · rw [h3]; rfl

/-- Helper: with an always-failing existence lookup, the generator yields
every successfully mapped point unchanged, and (when anything at all goes
through a batch) the fail-open warning is logged. -/
theorem safe_points_generator_fail {E : Type}
    (mapper : E → Option PointStruct) (b : Nat) :
    ∀ (ents : List E) (buf : List PointStruct),
      (safe_points_generator (fun _ => none) mapper true b ents buf).1 =
        buf ++ ents.filterMap mapper ∧
      (buf ++ ents.filterMap mapper ≠ [] →
        LogEvent.existFailure ∈
          (safe_points_generator (fun _ => none) mapper true b ents buf).2) := by
  intro ents
  induction ents with
  | nil =>
    intro buf
    cases buf with
    | nil => exact ⟨by simp [safe_points_generator], by simp [safe_points_generator]⟩
    | cons q qs =>
      refine ⟨by simp [safe_points_generator, process_batch], ?_⟩
      intro _
      simp [safe_points_generator, process_batch]
  | cons e rest ih =>
    intro buf
    cases hm : mapper e with
    | none =>
      refine ⟨?_, ?_⟩
      · simp [safe_points_generator, hm, (ih buf).1, List.filterMap_cons]
      · intro hne
        have hne' : buf ++ rest.filterMap mapper ≠ [] := by
          simpa [List.filterMap_cons, hm] using hne
        simp only [safe_points_generator, hm]
        exact List.mem_cons_of_mem _ ((ih buf).2 hne')
    | some p =>
      by_cases hb : b ≤ (buf ++ [p]).length
      · have hpb : process_batch (fun _ => none) (buf ++ [p]) =
            (buf ++ [p], [.existFailure]) := by
          cases hbuf : buf ++ [p] with
          | nil => exact absurd hbuf (by simp)
          | cons x xs => rw [← hbuf]; rw [hbuf]; rfl
        refine ⟨?_, ?_⟩
        · simp only [safe_points_generator, hm, if_true]
          rw [if_pos hb]
          simp [hpb, (ih []).1, List.filterMap_cons, hm, List.append_assoc]
        · intro _
          simp only [safe_points_generator, hm, if_true]
          rw [if_pos hb]
          simp [hpb]
      · refine ⟨?_, ?_⟩
        · simp only [safe_points_generator, hm, if_true]
          rw [if_neg hb]
          simp [(ih (buf ++ [p])).1, List.filterMap_cons, hm, List.append_assoc]
        · intro _
          simp only [safe_points_generator, hm, if_true]
          rw [if_neg hb]
          apply (ih (buf ++ [p])).2
          simp

/-- C8: when the batched existence lookup fails, the whole batch is yielded
unchanged to the bulk write with a logged warning (first conjunct, for any
batch whose lookup raises), and an upload whose every existence lookup
fails still completes, upserting every mapped point (fail-open) with the
warning logged — it never aborts. -/
theorem existence_check_failure_fail_open {E : Type}
    (cfg : VectorsConfig) (mapper : E → Option PointStruct) (b : Nat)
    (e0 : E) (rest : List E) (p0 : PointStruct)
    (hm0 : mapper e0 = some p0)
    (hval : ∃ ws, validate_vector_compatibility p0 cfg = .ok ws) :
    (∀ (retrieve : List Nat → Option (List Nat)) (pts : List PointStruct),
      pts ≠ [] → retrieve (pts.map (fun p => p.id)) = none →
      process_batch retrieve pts = (pts, [.existFailure])) ∧
    (∃ out, upload (fun _ => none) mapper cfg true b (e0 :: rest) = .ok out ∧
      out.written = (e0 :: rest).filterMap mapper ∧
      LogEvent.existFailure ∈ out.logs) := by
  constructor
  · intro retrieve pts hne hr
    cases pts with
    | nil => exact absurd rfl hne
    | cons x xs =>
      simp only [process_batch]
      rw [hr]
  · obtain ⟨ws, hws⟩ := hval
    have hgen := safe_points_generator_fail mapper b (e0 :: rest) []
    refine ⟨{ written :=
                (safe_points_generator (fun _ => none) mapper true b (e0 :: rest) []).1
              bulkWriteInvoked := true
              readinessPollInvoked := true
              logs :=
                (safe_points_generator (fun _ => none) mapper true b (e0 :: rest) []).2 },
        ?_, ?_, ?_⟩
    · simp [upload, prepare_upload, hm0, hws]
    · simpa using hgen.1
    · refine hgen.2 ?_
      simp [List.filterMap_cons, hm0]

/-- C8 witness: a one-point batch whose lookup raises is yielded unchanged
with the warning, and a one-entity upload with a failing lookup completes
writing that point with the fail-open warning logged. -/
theorem existence_check_failure_witness :
    process_batch (fun _ => none) [⟨1, PVector.named []⟩] =
      ([⟨1, PVector.named []⟩], [.existFailure]) ∧
    ∃ out, upload (fun _ => none) (fun p : PointStruct => some p) (.named [])
        true 64 [⟨1, PVector.named []⟩] = .ok out ∧
      out.written = [⟨1, PVector.named []⟩] ∧
      LogEvent.existFailure ∈ out.logs := by
  obtain ⟨hb, hout⟩ :=
    existence_check_failure_fail_open (.named [])
      (fun p : PointStruct => some p) 64 ⟨1, .named []⟩ [] ⟨1, .named []⟩
      rfl ⟨[], rfl⟩
  refine ⟨hb _ _ (by simp) rfl, ?_⟩
  obtain ⟨out, h1, h2, h3⟩ := hout
  exact ⟨out, h1, h2.trans rfl, h3⟩

/-- Helper: with enough fuel the poll loop always returns — once the
elapsed time `5*k` exceeds the timeout, the loop breaks on its own. -/
theorem waitLoop_isSome (status : Nat → CollStatus) (timeout : Nat) :
    ∀ (f k : Nat), timeout < 5 * k + 5 * f →
      (waitLoop status timeout k (f + 1)).isSome := by
  intro f
  induction f with
  | zero =>
    intro k hk
    simp only [waitLoop]
    by_cases hg : status k = .green
    · simp [hg]
    · have h5 : 5 * k > timeout := by omega
      simp [hg, h5]
  | succ f ih =>
    intro k hk
    simp only [waitLoop]
    by_cases hg : status k = .green
    · simp [hg]
    · by_cases ht : 5 * k > timeout
      · simp [hg, ht]
      · simpa [hg, ht] using ih (k + 1) (by omega)

/-- Helper: when the store never reports GREEN, any result the loop
produces is a timeout with the warning logged, at an elapsed time past the
timeout. -/
theorem waitLoop_never_green (status : Nat → CollStatus) (timeout : Nat)
    (hng : ∀ k, status k ≠ .green) :
    ∀ (f k r), waitLoop status timeout k f = some r →
      ∃ j, r = .timedOut j true ∧ 5 * j > timeout := by
  intro f
  induction f with
  | zero => intro k r h; exact absurd h (by simp [waitLoop])
  | succ f ih =>
    intro k r h
    rw [waitLoop] at h
    rw [if_neg (hng k)] at h
    by_cases ht : 5 * k > timeout
    · rw [if_pos ht] at h
      exact ⟨k, by injection h with h'; exact h'.symm, ht⟩
    · rw [if_neg ht] at h
      exact ih (k + 1) r h

/-- C5: `wait_for_collection_index` never raises. For every sequence of
store statuses and every timeout it returns a result (the loop always
terminates within its fuel); if the very first status check reports GREEN
it returns immediately with no warning; and if the store never reaches
GREEN it returns (rather than raising) a warned timeout at an elapsed time
strictly past the configured timeout. -/
theorem wait_for_collection_index_never_raises (status : Nat → CollStatus)
    (timeout : Nat) :
    (∃ r, wait_for_collection_index status timeout = some r) ∧
    (status 0 = .green →
      wait_for_collection_index status timeout = some (.greenAt 0)) ∧
    ((∀ k, status k ≠ .green) →
      ∃ k, wait_for_collection_index status timeout = some (.timedOut k true) ∧
        5 * k > timeout) := by
  have hsome : (wait_for_collection_index status timeout).isSome := by
    have hdm := Nat.div_add_mod timeout 5
    have hml : timeout % 5 < 5 := Nat.mod_lt _ (by omega)
    exact waitLoop_isSome status timeout (timeout / 5 + 1) 0 (by omega)
  refine ⟨Option.isSome_iff_exists.mp hsome, ?_, ?_⟩
  · intro hg
    rw [wait_for_collection_index, waitLoop]
    simp [hg]
  · intro hng
    obtain ⟨r, hr⟩ := Option.isSome_iff_exists.mp hsome
    obtain ⟨j, rfl, hj⟩ := waitLoop_never_green status timeout hng _ 0 r hr
    exact ⟨j, hr, hj⟩

/-- C5 witness: a store stuck on YELLOW with a 7-second timeout returns a
warned timeout past 7 s elapsed; a store GREEN from the start returns
immediately; in neither case is an exception possible. -/
theorem wait_for_collection_index_witness :
    (∃ r, wait_for_collection_index (fun _ => .yellow) 7 = some r) ∧
    wait_for_collection_index (fun _ => .green) 7 = some (.greenAt 0) ∧
    (∃ k, wait_for_collection_index (fun _ => .yellow) 7 =
        some (.timedOut k true) ∧ 5 * k > 7) :=
  ⟨(wait_for_collection_index_never_raises (fun _ => .yellow) 7).1,
   (wait_for_collection_index_never_raises (fun _ => .green) 7).2.1 rfl,
   (wait_for_collection_index_never_raises (fun _ => .yellow) 7).2.2
     (fun _ => by simp)⟩

/-- Helper: the instrumented generator maps each entity exactly once, in
order (the trace's entities are the stream itself). -/
theorem points_generatorT_trace {E : Type} (mapper : Nat → E → Option PointStruct) :
    ∀ (ents : List E) (k : Nat),
      (points_generatorT mapper ents k).1.map Prod.snd = ents := by
  intro ents
  induction ents with
  | nil => intro k; rfl
  | cons e rest ih =>
    intro k
    simp only [points_generatorT]
    cases hm : mapper k e <;> simp [ih]

/-- C10: for a non-empty entity stream, `upload` invokes the mapper on the
first entity exactly twice — invocation 0 during pre-upload validation and
invocation 1 at the start of streaming (the trace begins `(0,e0), (1,e0)`
and, when `e0` does not recur in the stream, the mapper is applied to it
exactly twice in the whole run) — and the point actually uploaded for the
first entity is the result of the second invocation. -/
theorem upload_maps_first_entity_twice {E : Type} [DecidableEq E]
    (mapper : Nat → E → Option PointStruct) (cfg : VectorsConfig)
    (e0 : E) (rest : List E) (p0 : PointStruct)
    (h0 : mapper 0 e0 = some p0)
    (hval : ∃ ws, validate_vector_compatibility p0 cfg = .ok ws) :
    (uploadT mapper cfg (e0 :: rest)).1 =
      (0, e0) :: (1, e0) :: (points_generatorT mapper rest 2).1 ∧
    (e0 ∉ rest →
      ((uploadT mapper cfg (e0 :: rest)).1.countP (fun q => q.2 = e0)) = 2) ∧
    (∀ p1, mapper 1 e0 = some p1 →
      (uploadT mapper cfg (e0 :: rest)).2 =
        .ok (p1 :: (points_generatorT mapper rest 2).2)) := by
  obtain ⟨ws, hws⟩ := hval
  have htr : (uploadT mapper cfg (e0 :: rest)).1 =
      (0, e0) :: (points_generatorT mapper (e0 :: rest) 1).1 := by
    simp [uploadT, prepare_uploadT, h0, hws]
  have hgen1 : (points_generatorT mapper (e0 :: rest) 1).1 =
      (1, e0) :: (points_generatorT mapper rest 2).1 := by
    simp only [points_generatorT]
    cases hm : mapper 1 e0 <;> rfl
  refine ⟨htr.trans (by rw [hgen1]), ?_, ?_⟩
  · intro hnot
    have hz : (points_generatorT mapper rest 2).1.countP (fun q => q.2 = e0) = 0 := by
      rw [List.countP_eq_length_filter]
      rw [List.length_eq_zero]
      rw [List.filter_eq_nil_iff]
      intro q hq
      have hq2 : q.2 ∈ rest := by
        rw [← points_generatorT_trace mapper rest 2]
        exact List.mem_map_of_mem _ hq
      simp only [decide_eq_true_eq]
      intro hcontra
      exact hnot (hcontra ▸ hq2)
    rw [htr, hgen1]
    simp [List.countP_cons, hz]
  · intro p1 h1
    have : (uploadT mapper cfg (e0 :: rest)).2 =
        .ok (points_generatorT mapper (e0 :: rest) 1).2 := by
      simp [uploadT, prepare_uploadT, h0, hws]
    rw [this]
    simp only [points_generatorT]
    rw [h1]

/-- C10 witness: an impure mapper whose output depends on the invocation
counter — on the stream `[5, 6]` the trace is
`[(0,5), (1,5), (2,6)]`, entity 5 is mapped exactly twice, and the point
uploaded for it carries the id produced by invocation 1 (105), not by
invocation 0 (5). -/
theorem upload_maps_first_entity_twice_witness :
    (uploadT (fun k n => some ⟨n + 100 * k, .named []⟩) (.named []) [5, 6]).1 =
      [(0, 5), (1, 5), (2, 6)] ∧
    ((uploadT (fun k n => some ⟨n + 100 * k, .named []⟩) (.named [])
        [5, 6]).1.countP (fun q => q.2 = 5)) = 2 ∧
    (uploadT (fun k n => some ⟨n + 100 * k, .named []⟩) (.named []) [5, 6]).2 =
      .ok [⟨105, .named []⟩, ⟨206, .named []⟩] := by
  obtain ⟨h1, h2, h3⟩ :=
    upload_maps_first_entity_twice (fun k n => some ⟨n + 100 * k, .named []⟩)
      (.named []) 5 [6] ⟨5, .named []⟩ rfl ⟨[], rfl⟩
  exact ⟨h1.trans rfl, (h2 (by decide)).symm.symm,
    (h3 ⟨105, .named []⟩ rfl).trans rfl⟩

/-- Helper: sorting an already ordered two-point sample is the identity. -/
theorem sortedSample_pair (a b : Rat) (hab : a ≤ b) :
    sortedSample [a, b] = [a, b] := by
  simp [sortedSample, List.insertionSort, List.orderedInsert, hab]

/-- Helper: the benchmark's reported p95 on a sorted two-point sample
`[a, b]` is the extrapolated value `(37b − 17a)/20` (cut 19 of 20 of
CPython's exclusive method: `j` clamps to 1, `delta = 57 − 20 = 37`). -/
theorem benchP95_two_sample (a b : Rat) (hab : a ≤ b) :
    benchP95 [a, b] = some ((37 * b - 17 * a) / 20) := by
  have hs := sortedSample_pair a b hab
  simp only [benchP95, quantilesExclusive, List.length_cons, List.length_nil, hs]
  norm_num [List.getElem?_map, List.getElem?_range]
  ring

/-- Helper: the benchmark's reported p99 on a sorted two-point sample
`[a, b]` is the extrapolated value `(197b − 97a)/100` (cut 99 of 100:
`j` clamps to 1, `delta = 297 − 100 = 197`). -/
theorem benchP99_two_sample (a b : Rat) (hab : a ≤ b) :
    benchP99 [a, b] = some ((197 * b - 97 * a) / 100) := by
  have hs := sortedSample_pair a b hab
  simp only [benchP99, quantilesExclusive, List.length_cons, List.length_nil, hs]
  norm_num [List.getElem?_map, List.getElem?_range]
  ring

/-- Helper: the nearest-rank p95 of a sorted two-point sample is its
maximum (`⌈0.95·2⌉ = 2`, the 2nd smallest value). -/
theorem nearestRank95_two_sample (a b : Rat) (hab : a ≤ b) :
    nearestRankQuantile [a, b] (95/100) = some b := by
  have hs := sortedSample_pair a b hab
  have hceil : ⌈(19/10 : Rat)⌉ = (2 : Int) := by
    rw [Int.ceil_eq_iff]
    norm_num
  simp only [nearestRankQuantile, hs, List.length_cons, List.length_nil]
  norm_num [hceil]
  rfl

/-- C4 counterexample: on the two-sample `[10, 20]` the benchmark reports
p95 = 28.5 and p99 = 29.7 (both beyond the sample maximum), while the
nearest-rank p95 (and p99) of that sample is 20 — so the claim that the
benchmark uses the nearest-rank quantile definition is false. -/
theorem benchmark_quantiles_counterexample :
    benchP95 [10, 20] = some (57/2) ∧
    benchP99 [10, 20] = some (297/10) ∧
    nearestRankQuantile [10, 20] (95/100) = some 20 ∧
    (57/2 : Rat) ≠ 20 ∧ (297/10 : Rat) ≠ 20 := by
  have h95 := benchP95_two_sample 10 20 (by norm_num)
  have h99 := benchP99_two_sample 10 20 (by norm_num)
  have hnr := nearestRank95_two_sample 10 20 (by norm_num)
  refine ⟨?_, ?_, hnr, by norm_num, by norm_num⟩
  · rw [h95]
    norm_num
  · rw [h99]
    norm_num

/-- C4 amended: the benchmark computes p95 and p99 with CPython's
`statistics.quantiles` default exclusive method — linear
interpolation/extrapolation around position `i·(ld+1)/n` of the sorted
sample with `j` clamped to `[1, ld−1]` — not the nearest-rank definition:
on every two-point sample `[a, b]` with `a ≤ b` it reports
p95 = `(37b − 17a)/20` and p99 = `(197b − 97a)/100`, whereas nearest-rank
p95 is `b`; the two disagree whenever `a < b`. -/
theorem benchmark_quantiles_interpolated (a b : Rat) (hab : a ≤ b) :
    benchP95 [a, b] = some ((37 * b - 17 * a) / 20) ∧
    benchP99 [a, b] = some ((197 * b - 97 * a) / 100) ∧
    nearestRankQuantile [a, b] (95/100) = some b ∧
    (a < b → benchP95 [a, b] ≠ nearestRankQuantile [a, b] (95/100)) := by
  have h95 := benchP95_two_sample a b hab
  have h99 := benchP99_two_sample a b hab
  have hnr := nearestRank95_two_sample a b hab
  refine ⟨h95, h99, hnr, ?_⟩
  intro hlt hcontra
  rw [h95, hnr] at hcontra
  have heq : (37 * b - 17 * a) / 20 = b := by injection hcontra
  have hab' : a = b := by linarith [heq]
  exact absurd hab' (ne_of_lt hlt)

/-- C4 witness: instantiating the interpolation characterization at the
sample `[10, 20]`, where the reported p95 differs from nearest-rank. -/
theorem benchmark_quantiles_interpolated_witness :
    benchP95 [10, 20] = some ((37 * 20 - 17 * 10) / 20) ∧
    benchP95 [10, 20] ≠ nearestRankQuantile [10, 20] (95/100) := by
  obtain ⟨h95, _, _, hne⟩ := benchmark_quantiles_interpolated 10 20 (by norm_num)
  exact ⟨h95, hne (by norm_num)⟩

end QdrantM
